import Mathlib

/-!
Verification of the streamlabs-obs asset/request core against its
natural-language specification.

The development shallowly embeds the TypeScript sources:
  * `src/app/util/requests.ts`  — `downloadFile`, `concatUint8Arrays`,
    `requiresToken` (token-refresh retry middleware);
  * the platform-app assets service — `getAsset`, `hasAsset`,
    `ADD_ASSET`, `addPlatformAppAsset`, `getApp`.

Promises are embedded as `Except` values (resolve = `Except.ok`,
reject = `Except.error`); the observable effects of an operation are
collected into explicit event traces so that claims about "what was
written / invoked and in which order" become statements about lists.
-/

namespace StreamlabsObs

/-! ## Streaming downloader (`src/app/util/requests.ts`, `downloadFile`) -/

/-- A fetched HTTP response: its status code and the body as the finite
sequence of binary chunks produced by the body reader.  Bytes are
modelled as `Nat`s. -/
structure Response where
  status : Nat
  chunks : List (List Nat)
  deriving DecidableEq, Repr

/-- `Response.ok` of the fetch API: status in the 2xx range. -/
def Response.ok (r : Response) : Bool :=
  decide (200 ≤ r.status ∧ r.status < 300)

/-- `concatUint8Arrays(a, b)`: a fresh buffer holding `a`'s bytes
followed by `b`'s bytes. -/
def concatUint8Arrays (a b : List Nat) : List Nat := a ++ b

/-- Observable events of one `downloadFile` run: a chunk arriving from
the body reader, the end-of-stream signal (`done === true`), a file
write (`fs.writeFileSync`), and the promise resolving with no value. -/
inductive DlEvent where
  | readChunk (bytes : List Nat)
  | endOfStream
  | write (path : String) (bytes : List Nat)
  | resolveDone
  deriving DecidableEq, Repr

/-- Whether an event is a file write. -/
def DlEvent.isWrite : DlEvent → Bool
  | .write _ _ => true
  | _ => false

/-- The `readStream` callback loop inside `downloadFile`: while chunks
remain, append each chunk to the accumulator `result` with
`concatUint8Arrays` and read again; on `done`, write the accumulated
buffer to `dstPath` and resolve. -/
def readStream (dstPath : String) (result : List Nat) :
    List (List Nat) → List DlEvent
  | [] => [DlEvent.endOfStream, DlEvent.write dstPath result, DlEvent.resolveDone]
  | value :: rest =>
      DlEvent.readChunk value ::
        readStream dstPath (concatUint8Arrays result value) rest

/-- The fate of the promise `downloadFile` returns.  The executor
passed to `new Promise` captures `resolve` and `reject`, but `reject`
is never called and the inner `fetch(...).then(...).then(...)` chain is
not wired back to the outer promise: when that chain rejects, the
rejection is an unhandled fault and the returned promise never
settles. -/
inductive DlOutcome where
  | resolved
  | neverSettles (unhandledReason : Response)
  deriving DecidableEq, Repr

/-- `downloadFile(srcUrl, dstPath)`, given the response the fetch of
`srcUrl` produced.  On an ok response the `readStream` loop runs and
`resolve()` is reached after the write.  On a non-ok response the first
`then` handler produces `Promise.reject(resp)`; no later handler and no
`catch` observes it, and the outer promise's `reject` is never invoked,
so the returned promise never settles (with `resp` as the unhandled
rejection reason) and no events occur.  Returns the outcome together
with the event trace. -/
def downloadFile (resp : Response) (dstPath : String) :
    DlOutcome × List DlEvent :=
  if resp.ok then (DlOutcome.resolved, readStream dstPath [] resp.chunks)
  else (DlOutcome.neverSettles resp, [])

/-- A file system: a partial map from paths to byte contents. -/
abbrev FileSystem := String → Option (List Nat)

/-- Replay a download event trace against a file system: each write
event creates or overwrites the file at its path. -/
def applyDlEvents (fs : FileSystem) : List DlEvent → FileSystem
  | [] => fs
  | DlEvent.write p bytes :: rest =>
      applyDlEvents (fun q => if q = p then some bytes else fs q) rest
  | _ :: rest => applyDlEvents fs rest

/-! ## Token-refresh retry middleware (`requiresToken`) -/

/-- The rejection reason of an authenticated call: the response carries
a `status` field (checked against 401) and a body. -/
structure ErrResp where
  status : Nat
  body : String
  deriving DecidableEq, Repr

/-- The value wrapper produced by the `requiresToken` decorator.  The
wrapped method `original` is stateful across invocations, so it is
modelled as a function of the call arguments and of the invocation
index (0 = first call, 1 = replay); `fetchNewToken` is the settled
outcome of the token refresh.  The result is the settled outcome of
the middleware together with the list of argument tuples `original`
was applied to (in order) and the number of `fetchNewToken` calls:

  * the first call resolves: resolve with its value;
  * it rejects with status 401: call `fetchNewToken`, then replay
    `original` with the same arguments and settle with the replay's
    outcome unmodified (the replay is not caught again);
  * it rejects with any other status: reject with the reason unmodified.
-/
def requiresToken (original : α → Nat → Except ErrResp β)
    (fetchNewToken : Except ErrResp Unit) (args : α) :
    Except ErrResp β × List α × Nat :=
  match original args 0 with
  | Except.ok v => (Except.ok v, [args], 0)
  | Except.error e =>
      if e.status = 401 then
        match fetchNewToken with
        | Except.ok _ => (original args 1, [args, args], 1)
        | Except.error re => (Except.error re, [args], 1)
      else (Except.error e, [args], 0)

/-! ## Asset cache store (`PlatformAppAssetsService` state) -/

/-- `AssetsMap`: asset filename → checksum. -/
abbrev AssetsMap := String → Option String

/-- `AssetsServiceState`: application id → `AssetsMap`. -/
abbrev AssetsServiceState := String → Option AssetsMap

/-- `getAsset(appId, assetName)`: the checksum recorded for the pair,
or absent (`null`/`undefined` in the source) when the app submap or
the entry is missing. -/
def getAsset (st : AssetsServiceState) (appId assetName : String) :
    Option String :=
  match st appId with
  | some appAssets => appAssets assetName
  | none => none

/-- JavaScript truthiness of `getAsset`'s result, as used by `!!` in
`hasAsset`: `null`/`undefined` and the empty string are falsy, every
other string is truthy. -/
def truthyAsset : Option String → Bool
  | none => false
  | some s => !s.isEmpty

/-- `hasAsset(appId, assetName)`: `!!this.getAsset(appId, assetName)`. -/
def hasAsset (st : AssetsServiceState) (appId assetName : String) : Bool :=
  truthyAsset (getAsset st appId assetName)

/-- The `ADD_ASSET` mutation: create the per-app submap if absent
(`if (!this.state[appId]) Vue.set(this.state, appId, {})`), then set
`assetName → checksum` inside it. -/
def ADD_ASSET (st : AssetsServiceState)
    (appId assetName checksum : String) : AssetsServiceState :=
  let appMap : AssetsMap :=
    match st appId with
    | none => fun _ => none
    | some m => m
  fun a =>
    if a = appId then
      some (fun n => if n = assetName then some checksum else appMap n)
    else st a

/-! ## Asset acquisition orchestrator (`addPlatformAppAsset`) -/

/-- `ILoadedApp`, restricted to the field the orchestrator reads. -/
structure ILoadedApp where
  id : String
  deriving DecidableEq, Repr

/-- Simplified POSIX `path.join` of two segments. -/
def pathJoin (a b : String) : String := a ++ "/" ++ b

/-- `path.basename`: the final path component. -/
def basename (p : String) : String :=
  match (p.splitOn "/").getLast? with
  | some s => s
  | none => p

/-- The external collaborators and I/O outcomes an
`addPlatformAppAsset` invocation consults: the lifecycle collaborator
(`platformAppsService.getApp` / `getAssetUrl`), the settled outcome of
`downloadFile(url, path)` and of `getChecksum(path)`, and the
user-data root used by `ensureAssets`. -/
structure OrchEnv where
  getAppExt : String → Option ILoadedApp
  getAssetUrl : String → String → String
  download : String → String → Except Response Unit
  checksum : String → Except String String
  userDataPath : String

/-- Failures of the orchestrator: the distinct invalid-application
error thrown by the private `getApp` (message `Invalid app: ${appId}`),
a rejected download, and a rejected checksum computation. -/
inductive OrchError where
  | invalidApp (message : String)
  | downloadFailed (resp : Response)
  | checksumFailed (ioError : String)
  deriving DecidableEq, Repr

/-- The private `getApp(appId)`: the lifecycle collaborator's app, or a
thrown `Invalid app: ${appId}` error when it is absent. -/
def getApp (env : OrchEnv) (appId : String) : Except OrchError ILoadedApp :=
  match env.getAppExt appId with
  | none => Except.error (OrchError.invalidApp ("Invalid app: " ++ appId))
  | some app => Except.ok app

/-- Observable effects of one orchestrator invocation: directory
creation (`mkdirp`), a `downloadFile` call, a `getChecksum` call, and
an `ADD_ASSET` commit. -/
inductive OrchEvent where
  | mkdir (dir : String)
  | download (url : String) (path : String)
  | checksumOf (path : String)
  | record (appId assetName checksum : String)
  deriving DecidableEq, Repr

/-- Whether an event is an `ADD_ASSET` commit. -/
def OrchEvent.isRecord : OrchEvent → Bool
  | .record _ _ _ => true
  | _ => false

/-- `addPlatformAppAsset(appId, assetUrl, force)`, mirroring the source
statement by statement:

1. `originalUrl = platformAppsService.getAssetUrl(appId, assetUrl)`;
2. `assetsDir = await getAssetsTargetDirectory(appId)`, which is
   `ensureAssets(this.getApp(appId))` — `getApp` throws before any
   directory creation when the app is unknown, otherwise `ensureAssets`
   runs `mkdirp` on `userData/Media/Apps/${app.id}`;
3. `filePath = path.flatten(assetsDir, path.basename(originalUrl))`;
4. `await downloadFile(originalUrl, filePath)` — unconditional, the
   `force` parameter is never read;
5. `checksum = await getChecksum(filePath)`;
6. `ADD_ASSET(appId, assetUrl, checksum)`;
7. resolve with `filePath`.

Returns the settled outcome, the post-state of the asset cache, and
the effect trace. -/
def addPlatformAppAsset (env : OrchEnv) (st : AssetsServiceState)
    (appId assetUrl : String) (force : Bool) :
    Except OrchError String × AssetsServiceState × List OrchEvent :=
  let originalUrl := env.getAssetUrl appId assetUrl
  match getApp env appId with
  | Except.error e => (Except.error e, st, [])
  | Except.ok app =>
      let assetsDir := pathJoin (pathJoin (pathJoin env.userDataPath "Media") "Apps") app.id
      let filePath := pathJoin assetsDir (basename originalUrl)
      match env.download originalUrl filePath with
      | Except.error resp =>
          (Except.error (OrchError.downloadFailed resp), st,
           [OrchEvent.mkdir assetsDir, OrchEvent.download originalUrl filePath])
      | Except.ok _ =>
          match env.checksum filePath with
          | Except.error e =>
              (Except.error (OrchError.checksumFailed e), st,
               [OrchEvent.mkdir assetsDir, OrchEvent.download originalUrl filePath,
                OrchEvent.checksumOf filePath])
          | Except.ok cs =>
              (Except.ok filePath, ADD_ASSET st appId assetUrl cs,
               [OrchEvent.mkdir assetsDir, OrchEvent.download originalUrl filePath,
                OrchEvent.checksumOf filePath, OrchEvent.record appId assetUrl cs])

/-! ## Concrete instances used to exercise the theorems -/

/-- A wrapped operation that rejects with status 401 on its first
invocation and resolves with `42` on the replay. -/
def origRetryOk : Nat → Nat → Except ErrResp Nat := fun _ n =>
  if n = 0 then Except.error ⟨401, "token expired"⟩ else Except.ok 42

/-- A wrapped operation that rejects with status 401 on both its first
invocation and the replay, with distinguishable reasons. -/
def origRetry401 : Nat → Nat → Except ErrResp Nat := fun _ n =>
  if n = 0 then Except.error ⟨401, "first failure"⟩
  else Except.error ⟨401, "second failure"⟩

/-- An environment whose lifecycle collaborator knows no application. -/
def envUnknownApp : OrchEnv :=
  ⟨fun _ => none, fun _ u => u, fun _ _ => Except.ok (),
   fun _ => Except.ok "d41d8cd98f00b204e9800998ecf8427e", "/ud"⟩

/-- An environment where the app is known but every download rejects
with a status-500 response. -/
def envDownloadFail : OrchEnv :=
  ⟨fun _ => some ⟨"app-1"⟩, fun _ u => u, fun _ _ => Except.error ⟨500, []⟩,
   fun _ => Except.ok "d41d8cd98f00b204e9800998ecf8427e", "/ud"⟩

/-! ## Theorems -/

/-- The `readStream` loop emits every chunk-read event in arrival
order, then the end-of-stream signal, then a single write of the
accumulator followed by the concatenation of all chunks, then the
resolution. -/
lemma readStream_eq (dstPath : String) (result : List Nat)
    (chunks : List (List Nat)) :
    readStream dstPath result chunks =
      chunks.map DlEvent.readChunk ++
        [DlEvent.endOfStream, DlEvent.write dstPath (result ++ chunks.flatten),
         DlEvent.resolveDone] := by
  induction chunks generalizing result with
  | nil => simp [readStream]
  | cons c rest ih =>
      simp [readStream, concatUint8Arrays, ih, List.append_assoc]

/-- Filtering for write events drops all chunk-read events. -/
lemma filter_isWrite_map_readChunk (l : List (List Nat)) :
    (l.map DlEvent.readChunk).filter DlEvent.isWrite = [] := by
  induction l with
  | nil => simp
  | cons c rest ih => simp [DlEvent.isWrite, ih]

/-- C1 (code defect): at the failing input — a fetch answered with a
status-404 response — the download indeed emits no events and leaves
every file system unchanged (nothing is created or truncated at the
destination), but it does not settle as a rejection: the returned
promise never settles, with the response as the unhandled rejection
reason, because the executor's `reject` is never wired to the inner
chain. -/
theorem downloadFile_404_hangs_writes_nothing (fs : FileSystem) :
    downloadFile ⟨404, [[1, 2, 3]]⟩ "/tmp/asset.bin" =
      (DlOutcome.neverSettles ⟨404, [[1, 2, 3]]⟩, []) ∧
    applyDlEvents fs (downloadFile ⟨404, [[1, 2, 3]]⟩ "/tmp/asset.bin").2 =
      fs := by
  constructor
  · rfl
  · rfl

/-- C8: on a successful response the download resolves with no value
and its trace reads every chunk in arrival order, observes the
end-of-stream signal, and only then performs exactly one write — of the
concatenation of all chunks — to the destination path, after which it
resolves. -/
theorem downloadFile_ok_single_write_after_eos (resp : Response)
    (dstPath : String) (h : resp.ok = true) :
    (downloadFile resp dstPath).1 = DlOutcome.resolved ∧
    (downloadFile resp dstPath).2 =
      resp.chunks.map DlEvent.readChunk ++
        [DlEvent.endOfStream, DlEvent.write dstPath resp.chunks.flatten,
         DlEvent.resolveDone] ∧
    (downloadFile resp dstPath).2.filter DlEvent.isWrite =
      [DlEvent.write dstPath resp.chunks.flatten] := by
  refine ⟨by simp [downloadFile, h], ?_, ?_⟩
  · simp [downloadFile, h, readStream_eq]
  · simp [downloadFile, h, readStream_eq, List.filter_append,
      filter_isWrite_map_readChunk, DlEvent.isWrite]

/-- C8 witness: a status-200 response with chunks `[1, 2]` and `[3]`
is ok; the download resolves and writes `[1, 2, 3]` exactly once after
the end-of-stream signal. -/
theorem downloadFile_ok_single_write_after_eos_witness :
    Response.ok ⟨200, [[1, 2], [3]]⟩ = true ∧
    ((downloadFile ⟨200, [[1, 2], [3]]⟩ "/tmp/a.bin").1 = DlOutcome.resolved ∧
      (downloadFile ⟨200, [[1, 2], [3]]⟩ "/tmp/a.bin").2 =
        ([[1, 2], [3]] : List (List Nat)).map DlEvent.readChunk ++
          [DlEvent.endOfStream,
           DlEvent.write "/tmp/a.bin" ([[1, 2], [3]] : List (List Nat)).flatten,
           DlEvent.resolveDone] ∧
      (downloadFile ⟨200, [[1, 2], [3]]⟩ "/tmp/a.bin").2.filter
          DlEvent.isWrite =
        [DlEvent.write "/tmp/a.bin" ([[1, 2], [3]] : List (List Nat)).flatten]) :=
  ⟨by decide,
   downloadFile_ok_single_write_after_eos ⟨200, [[1, 2], [3]]⟩ "/tmp/a.bin"
     (by decide)⟩

/-- C2: if the wrapped operation rejects with a status-401 reason on
its first invocation and resolves on the replay, and the refresh
resolves, the middleware resolves with the replay's result, invokes the
wrapped operation exactly twice with the same original arguments, and
invokes the refresh exactly once. -/
theorem requiresToken_retry_resolves (original : α → Nat → Except ErrResp β)
    (fetchNewToken : Except ErrResp Unit) (args : α) (e : ErrResp) (v : β)
    (h1 : original args 0 = Except.error e) (h2 : e.status = 401)
    (h3 : original args 1 = Except.ok v)
    (h4 : fetchNewToken = Except.ok ()) :
    requiresToken original fetchNewToken args =
      (Except.ok v, [args, args], 1) := by
  simp [requiresToken, h1, h2, h3, h4]

/-- C2 witness: `origRetryOk` rejects with status 401 first and
resolves with `42` on replay; the middleware resolves with `42`, calls
the operation twice with argument `7`, and refreshes once. -/
theorem requiresToken_retry_resolves_witness :
    origRetryOk 7 0 = Except.error ⟨401, "token expired"⟩ ∧
    ErrResp.status ⟨401, "token expired"⟩ = 401 ∧
    origRetryOk 7 1 = Except.ok 42 ∧
    (Except.ok () : Except ErrResp Unit) = Except.ok () ∧
    requiresToken origRetryOk (Except.ok ()) 7 = (Except.ok 42, [7, 7], 1) :=
  ⟨rfl, rfl, rfl, rfl,
   requiresToken_retry_resolves origRetryOk (Except.ok ()) 7 _ 42 rfl rfl
     rfl rfl⟩

/-- C3: if the wrapped operation rejects with status-401 reasons on
both the first invocation and the replay, and the refresh resolves, the
middleware rejects with the second failure's reason unmodified, invokes
the refresh exactly once, and the wrapped operation exactly twice —
there is no further retry. -/
theorem requiresToken_second401_rejects (original : α → Nat → Except ErrResp β)
    (fetchNewToken : Except ErrResp Unit) (args : α) (e1 e2 : ErrResp)
    (h1 : original args 0 = Except.error e1) (h2 : e1.status = 401)
    (h3 : original args 1 = Except.error e2) (h4 : e2.status = 401)
    (h5 : fetchNewToken = Except.ok ()) :
    requiresToken original fetchNewToken args =
      (Except.error e2, [args, args], 1) := by
  simp [requiresToken, h1, h2, h3, h5]

/-- C3 witness: `origRetry401` rejects with status 401 on both calls;
the middleware rejects with the second reason, calls the operation
twice with argument `3`, and refreshes once. -/
theorem requiresToken_second401_rejects_witness :
    origRetry401 3 0 = Except.error ⟨401, "first failure"⟩ ∧
    ErrResp.status ⟨401, "first failure"⟩ = 401 ∧
    origRetry401 3 1 = Except.error ⟨401, "second failure"⟩ ∧
    ErrResp.status ⟨401, "second failure"⟩ = 401 ∧
    (Except.ok () : Except ErrResp Unit) = Except.ok () ∧
    requiresToken origRetry401 (Except.ok ()) 3 =
      (Except.error ⟨401, "second failure"⟩, [3, 3], 1) :=
  ⟨rfl, rfl, rfl, rfl, rfl,
   requiresToken_second401_rejects origRetry401 (Except.ok ()) 3 _ _ rfl rfl
     rfl rfl rfl⟩

/-- C6 counterexample: `record` with the empty-string checksum makes
`lookup` return the (present) empty checksum while `has` returns
`false` — refuting "after `record(appId, name, cs)`, `has(appId, name)`
returns true for every checksum `cs`". -/
theorem ADD_ASSET_empty_checksum_has_false :
    getAsset (ADD_ASSET (fun _ => none) "app-1" "transition.mp4" "")
        "app-1" "transition.mp4" = some "" ∧
    hasAsset (ADD_ASSET (fun _ => none) "app-1" "transition.mp4" "")
        "app-1" "transition.mp4" = false := by
  constructor <;> rfl

/-- C6 (amended): after `record(appId, name, cs)`, `lookup(appId, name)`
returns `cs` for every prior state; `has(appId, name)` returns true
exactly when `cs` is non-empty (so always, for the 32-hex-digit
checksums the orchestrator records); and after two records for the same
pair only the most recent checksum is visible. -/
theorem ADD_ASSET_lookup_last_write_wins (st : AssetsServiceState)
    (appId assetName cs cs1 cs2 : String) :
    getAsset (ADD_ASSET st appId assetName cs) appId assetName = some cs ∧
    hasAsset (ADD_ASSET st appId assetName cs) appId assetName =
      !cs.isEmpty ∧
    getAsset (ADD_ASSET (ADD_ASSET st appId assetName cs1) appId assetName cs2)
        appId assetName = some cs2 := by
  refine ⟨?_, ?_, ?_⟩ <;>
    simp [getAsset, hasAsset, truthyAsset, ADD_ASSET]

/-- C7 counterexample: in a table whose stored checksum for
`("app-2", "overlay.png")` is the empty string, `lookup` is present but
`has` returns `false` — refuting "`has` is true iff `lookup` is
present, including when the stored checksum is the empty string". -/
theorem hasAsset_empty_checksum_false_though_present :
    (getAsset
        (fun a => if a = "app-2" then
            some (fun n => if n = "overlay.png" then some "" else none)
          else none)
        "app-2" "overlay.png").isSome = true ∧
    hasAsset
        (fun a => if a = "app-2" then
            some (fun n => if n = "overlay.png" then some "" else none)
          else none)
        "app-2" "overlay.png" = false := by
  constructor <;> rfl

/-- C7 (amended): `has(appId, assetName)` returns true iff
`lookup(appId, assetName)` is present with a non-empty checksum — the
`!!` coercion in the source treats the empty string like absence. -/
theorem hasAsset_iff_lookup_nonempty (st : AssetsServiceState)
    (appId assetName : String) :
    hasAsset st appId assetName = true ↔
      ∃ cs, getAsset st appId assetName = some cs ∧ cs ≠ "" := by
  unfold hasAsset truthyAsset
  cases h : getAsset st appId assetName with
  | none => simp
  | some s =>
      have hb : s.isEmpty = false ↔ ¬s = "" := by
        rw [Bool.eq_false_iff, Ne, String.isEmpty_iff]
      simp only [Bool.not_eq_true']
      constructor
      · intro hs
        exact ⟨s, rfl, hb.mp hs⟩
      · rintro ⟨cs, hcs, hne⟩
        cases hcs
        exact hb.mpr hne

/-- C10: `record(appId, assetName, checksum)` leaves every entry for a
different `(appId', assetName')` pair unchanged — it touches only the
one addressed entry, creating the per-application submap when absent
without disturbing other applications' submaps. -/
theorem ADD_ASSET_frame (st : AssetsServiceState)
    (appId assetName checksum appId' assetName' : String)
    (h : (appId', assetName') ≠ (appId, assetName)) :
    getAsset (ADD_ASSET st appId assetName checksum) appId' assetName' =
      getAsset st appId' assetName' := by
  by_cases ha : appId' = appId
  · subst ha
    have hn : assetName' ≠ assetName := by
      intro hn
      exact h (by rw [hn])
    cases hm : st appId' with
    | none => simp [getAsset, ADD_ASSET, hm, hn]
    | some m => simp [getAsset, ADD_ASSET, hm, hn]
  · simp [getAsset, ADD_ASSET, ha]

/-- C10 witness: recording a checksum for `("app-a", "n.bin")` leaves
the (absent) entry for `("app-b", "n.bin")` absent. -/
theorem ADD_ASSET_frame_witness :
    (("app-b", "n.bin") : String × String) ≠ ("app-a", "n.bin") ∧
    getAsset (ADD_ASSET (fun _ => none) "app-a" "n.bin" "c1")
        "app-b" "n.bin" = getAsset (fun _ => none) "app-b" "n.bin" :=
  ⟨by decide, ADD_ASSET_frame (fun _ => none) "app-a" "n.bin" "c1"
    "app-b" "n.bin" (by decide)⟩

/-- C4: when the lifecycle collaborator knows no app for `appId`, the
orchestrator rejects with the distinct invalid-application error
(`Invalid app: ${appId}`), the cache table is returned unchanged, and
the effect trace is empty — no directory creation, no download, no
checksum, no record. -/
theorem addPlatformAppAsset_unknown_app (env : OrchEnv)
    (st : AssetsServiceState) (appId assetUrl : String) (force : Bool)
    (h : env.getAppExt appId = none) :
    addPlatformAppAsset env st appId assetUrl force =
      (Except.error (OrchError.invalidApp ("Invalid app: " ++ appId)),
       st, []) := by
  simp [addPlatformAppAsset, getApp, h]

/-- C4 witness: against `envUnknownApp`, the orchestrator invoked on
`"missing-app"` rejects with the invalid-application error, leaves the
empty table unchanged, and emits no events. -/
theorem addPlatformAppAsset_unknown_app_witness :
    OrchEnv.getAppExt envUnknownApp "missing-app" = none ∧
    addPlatformAppAsset envUnknownApp (fun _ => none) "missing-app"
        "transition.mp4" false =
      (Except.error (OrchError.invalidApp ("Invalid app: " ++ "missing-app")),
       (fun _ => none), []) :=
  ⟨rfl, addPlatformAppAsset_unknown_app envUnknownApp (fun _ => none)
    "missing-app" "transition.mp4" false rfl⟩

/-- Case analysis on one orchestrator invocation: either the cache
table is unchanged and no record event was emitted, or the invocation
resolved. -/
lemma addPlatformAppAsset_cases (env : OrchEnv) (st : AssetsServiceState)
    (appId assetUrl : String) (force : Bool) :
    ((addPlatformAppAsset env st appId assetUrl force).2.1 = st ∧
      ((addPlatformAppAsset env st appId assetUrl force).2.2).filter
        OrchEvent.isRecord = []) ∨
    (∃ p, (addPlatformAppAsset env st appId assetUrl force).1 =
        Except.ok p) := by
  unfold addPlatformAppAsset
  dsimp only
  split
  · simp [OrchEvent.isRecord]
  · split
    · simp [OrchEvent.isRecord]
    · split
      · simp [OrchEvent.isRecord]
      · exact Or.inr ⟨_, rfl⟩

/-- C5: whenever the orchestrator rejects — unknown application,
failed download, or failed checksum — the cache table after the
invocation equals the table before it, and the effect trace contains no
record event: `record` happens only when both download and checksum
succeeded. -/
theorem addPlatformAppAsset_error_no_record (env : OrchEnv)
    (st : AssetsServiceState) (appId assetUrl : String) (force : Bool)
    (e : OrchError)
    (h : (addPlatformAppAsset env st appId assetUrl force).1 =
        Except.error e) :
    (addPlatformAppAsset env st appId assetUrl force).2.1 = st ∧
    ((addPlatformAppAsset env st appId assetUrl force).2.2).filter
      OrchEvent.isRecord = [] := by
  rcases addPlatformAppAsset_cases env st appId assetUrl force with
    hc | ⟨p, hp⟩
  · exact hc
  · rw [hp] at h
    cases h

/-- C5 witness: against `envDownloadFail` the orchestrator rejects with
the download failure, the (empty) cache table is unchanged, and the
trace holds no record event. -/
theorem addPlatformAppAsset_error_no_record_witness :
    (addPlatformAppAsset envDownloadFail (fun _ => none) "app-1"
        "transition.mp4" false).1 =
      Except.error (OrchError.downloadFailed ⟨500, []⟩) ∧
    ((addPlatformAppAsset envDownloadFail (fun _ => none) "app-1"
        "transition.mp4" false).2.1 = (fun _ => none) ∧
      ((addPlatformAppAsset envDownloadFail (fun _ => none) "app-1"
          "transition.mp4" false).2.2).filter OrchEvent.isRecord = []) :=
  ⟨rfl, addPlatformAppAsset_error_no_record envDownloadFail (fun _ => none)
    "app-1" "transition.mp4" false (OrchError.downloadFailed ⟨500, []⟩) rfl⟩

/-- C9: the settled outcome and the effect trace of an orchestrator
invocation are independent of the `force` flag and of the entire prior
cache table — two runs differing only in those perform the same
directory-creation, download, checksum, and record steps. -/
theorem addPlatformAppAsset_force_cache_independent (env : OrchEnv)
    (st1 st2 : AssetsServiceState) (appId assetUrl : String)
    (f1 f2 : Bool) :
    (addPlatformAppAsset env st1 appId assetUrl f1).1 =
      (addPlatformAppAsset env st2 appId assetUrl f2).1 ∧
    (addPlatformAppAsset env st1 appId assetUrl f1).2.2 =
      (addPlatformAppAsset env st2 appId assetUrl f2).2.2 := by
  constructor <;>
    (unfold addPlatformAppAsset
     dsimp only
     split
     · rfl
     · split
       · rfl
       · split
         · rfl
         · rfl)

end StreamlabsObs
